import Mathlib

/-!
# Verification of gowut ListBox selection and client runtime behaviors

Shallow embedding of the two source files:
* `gwu/listbox.go` — the ListBox component (selection vector, selection
  mutators, event preprocessing).
* `gwu/sess_monitor.go` — the SessMonitor component's `Render`, and the
  static client-side JavaScript (`se`, `procEresp`, `setupTimer`,
  `checkSession`).

Go runtime faults (out-of-range slice index panics) are modelled by
`Option`: `none` is a panic. JavaScript dynamic-value quirks
(`undefined`, `NaN`) are modelled by an explicit `JsVal` type.
-/

namespace Gowut

/-! ## ListBox (listbox.go)

`listBoxImpl` fields (the embedded `compImpl`/`hasEnabledImpl` carry no
state relevant to the selection claims and are omitted):
`values []string; multi bool; selected []bool; rows int`. -/

structure ListBoxState where
  values : List String
  multi : Bool
  selected : List Bool
  rows : Int
deriving Repr, DecidableEq

/-- Go `NewListBox(values)`: selection vector is `make([]bool, len(values))`
(all false), `multi = false`, `rows = 1`. -/
def newListBox (values : List String) : ListBoxState :=
  { values := values
    multi := false
    selected := List.replicate values.length false
    rows := 1 }

/-- Go slice write `sel[idx] = true` where `idx` is a Go `int`:
panics (`none`) unless `0 <= idx < len(sel)`. -/
def setTrueAt (sel : List Bool) (idx : Int) : Option (List Bool) :=
  if 0 ≤ idx ∧ idx.toNat < sel.length then some (sel.set idx.toNat true) else none

/-- Go `ClearSelected()`: sets every entry of the selection vector to false. -/
def clearSelected (c : ListBoxState) : ListBoxState :=
  { c with selected := c.selected.map (fun _ => false) }

/-- Go `SetSelectedIndices(indices)`: clears the selection vector, then for
each listed index writes `c.selected[idx] = true` with no bounds check
(an out-of-range index panics). -/
def setSelectedIndices (c : ListBoxState) (indices : List Int) : Option ListBoxState :=
  (indices.foldlM setTrueAt (c.selected.map (fun _ => false))).map
    (fun sel => { c with selected := sel })

/-- Auxiliary scan for `SelectedValue`: index of the first `true`. -/
def firstSelected : List Bool → Nat → Option Nat
  | [], _ => none
  | b :: bs, i => if b then some i else firstSelected bs (i + 1)

/-- Go `SelectedValue()`: returns `values[i]` for the first selected index
`i`, or `""` when nothing is selected. The outer `Option` is the Go
panic on `values[i]` when the vectors have mismatched lengths. -/
def selectedValue (c : ListBoxState) : Option String :=
  match firstSelected c.selected 0 with
  | none => some ""
  | some i => c.values.get? i

/-- Auxiliary scan for `SelectedIndices`: indices of `true` entries,
offset by `k`. -/
def selectedIndicesAux : List Bool → Nat → List Nat
  | [], _ => []
  | b :: bs, k =>
    if b then k :: selectedIndicesAux bs (k + 1) else selectedIndicesAux bs (k + 1)

/-- Go `SelectedIndices()`: the indices whose selection entry is true, in
increasing order. -/
def selectedIndices (c : ListBoxState) : List Nat :=
  selectedIndicesAux c.selected 0

/-- Go `strconv.Atoi` on one token (as its character list): optional sign
followed by at least one decimal digit, nothing else; any other form is
an error (`none`). -/
def atoiDigits (ds : List Char) : Option Nat :=
  match ds with
  | [] => none
  | _ => ds.foldlM (fun acc ch =>
      if ch.isDigit then some (acc * 10 + (ch.toNat - 48)) else none) 0

def atoi (s : List Char) : Option Int :=
  match s with
  | '+' :: ds => (atoiDigits ds).map Int.ofNat
  | '-' :: ds => (atoiDigits ds).map (fun n => -(n : Int))
  | ds => (atoiDigits ds).map Int.ofNat

/-- Go `strings.Split(s, sep)` for a one-character separator: splits the
character list at every occurrence of `sep` (`Split("", ",") = [""]`,
consistent with Go for a non-empty separator). -/
def splitSepAux (sep : Char) : List Char → List Char → List (List Char)
  | [], acc => [acc.reverse]
  | ch :: cs, acc =>
    if ch = sep then acc.reverse :: splitSepAux sep cs []
    else splitSepAux sep cs (ch :: acc)

def splitSep (sep : Char) (cs : List Char) : List (List Char) :=
  splitSepAux sep cs []

/-- Go `preprocessEvent`: reads the submitted component value. Empty value:
return unchanged. Otherwise `ClearSelected()`, then for each
comma-separated token, if `strconv.Atoi` succeeds write
`c.selected[idx] = true` (no bounds check — panic on out-of-range),
else skip the token. -/
def preprocessEvent (c : ListBoxState) (value : String) : Option ListBoxState :=
  if value.data.length = 0 then some c
  else
    ((splitSep ',' value.data).foldlM
        (fun sel tok =>
          match atoi tok with
          | some idx => setTrueAt sel idx
          | none => some sel)
        (c.selected.map (fun _ => false))).map
      (fun sel => { c with selected := sel })

end Gowut

namespace Gowut

/-! ### Helper lemmas about the selection fold -/

theorem foldlM_setTrueAt_some (indices : List Int) (sel : List Bool)
    (h : ∀ i ∈ indices, 0 ≤ i ∧ i.toNat < sel.length) :
    ∃ sel', indices.foldlM setTrueAt sel = some sel' ∧
      sel'.length = sel.length ∧
      ∀ j : Nat, (sel'.getD j false = true ↔
        (sel.getD j false = true ∨ ∃ i ∈ indices, i.toNat = j)) := by
  induction indices generalizing sel with
  | nil =>
    refine ⟨sel, rfl, rfl, ?_⟩
    intro j
    simp
  | cons i rest ih =>
    have hi := h i (by simp)
    have hstep : setTrueAt sel i = some (sel.set i.toNat true) := by
      unfold setTrueAt
      rw [if_pos hi]
    have hrest : ∀ x ∈ rest, 0 ≤ x ∧ x.toNat < (sel.set i.toNat true).length := by
      intro x hx
      simpa using h x (by simp [hx])
    obtain ⟨sel', hfold, hlen, hget⟩ := ih (sel.set i.toNat true) hrest
    refine ⟨sel', ?_, by simpa using hlen, ?_⟩
    · simpa [List.foldlM, hstep] using hfold
    · intro j
      rw [hget j]
      by_cases hji : i.toNat = j
      · have hL : (sel.set i.toNat true).getD j false = true := by
          subst hji
          simp [List.getD, List.getElem?_set_self', hi.2]

        rw [hL]
        simp only [List.exists_mem_cons_iff]
        constructor
        · intro _
          exact Or.inr (Or.inl hji)
        · intro _
          exact Or.inl trivial
      · have hL : (sel.set i.toNat true).getD j false = sel.getD j false := by
          simp [List.getD, List.getElem?_set_ne hji]
        rw [hL]
        simp only [List.exists_mem_cons_iff]
        constructor
        · rintro (hx | hx)
          · exact Or.inl hx
          · exact Or.inr (Or.inr hx)
        · rintro (hx | hx | hx)
          · exact Or.inl hx
          · exact absurd hx hji
          · exact Or.inr hx

theorem getD_map_false (bs : List Bool) (j : Nat) :
    (bs.map (fun _ => false)).getD j false = false := by
  induction bs generalizing j with
  | nil => simp [List.getD]
  | cons b bs ih =>
    cases j with
    | zero => simp
    | succ j =>
      rw [List.map_cons, List.getD_cons_succ]
      exact ih j

theorem selectedIndicesAux_eq (bs : List Bool) (k : Nat) :
    selectedIndicesAux bs k =
      ((List.range bs.length).filter (fun j => bs.getD j false)).map (fun j => j + k) := by
  induction bs generalizing k with
  | nil => simp [selectedIndicesAux]
  | cons b bs ih =>
    have hcomp : ((fun j => j + k) ∘ Nat.succ) = (fun j => j + (k + 1)) := by
      funext j
      simp only [Function.comp_apply]
      omega
    have hpc : ((fun j => (b :: bs).getD j false) ∘ Nat.succ) = (fun j => bs.getD j false) := by
      funext j
      simp
    simp only [selectedIndicesAux, List.length_cons, List.range_succ_eq_map,
      List.filter_cons, List.filter_map, hpc, ih (k + 1), List.map_map, hcomp]
    cases b <;> simp [hcomp]

theorem selectedIndices_eq_filter (c : ListBoxState) :
    selectedIndices c =
      (List.range c.selected.length).filter (fun j => c.selected.getD j false) := by
  rw [selectedIndices, selectedIndicesAux_eq]
  simp

end Gowut

namespace Gowut

/-! ### Claims about the ListBox (C1, C2, C6, C9, C10) -/

/-- C9: Calling `ClearSelected()` twice in a row on any ListBox yields
exactly the same widget state as calling it once. -/
theorem clearSelected_idempotent (c : ListBoxState) :
    clearSelected (clearSelected c) = clearSelected c := by
  simp [clearSelected, List.map_map]

/-- C1 counterexample: `SetSelectedIndices` with the out-of-range index 5
on a three-value ListBox faults (Go slice-index panic, modelled as
`none`); the out-of-range index is neither rejected nor ignored. -/
theorem setSelectedIndices_out_of_range_faults :
    setSelectedIndices (newListBox ["a", "b", "c"]) [5] = none := by
  decide

/-- C1 (amended): for every ListBox whose selection vector matches its
value list in length, `SetSelectedIndices(indices)` with all indices in
range completes and preserves `len(selected) == len(values)`; an
out-of-range index makes the call fault rather than being ignored. -/
theorem setSelectedIndices_preserves_invariant (c : ListBoxState) (indices : List Int)
    (hlen : c.selected.length = c.values.length)
    (hin : ∀ i ∈ indices, 0 ≤ i ∧ i.toNat < c.values.length) :
    ∃ c', setSelectedIndices c indices = some c' ∧
      c'.selected.length = c'.values.length := by
  have hin' : ∀ i ∈ indices, 0 ≤ i ∧ i.toNat < (c.selected.map (fun _ => false)).length := by
    intro i hi
    simpa [hlen] using hin i hi
  obtain ⟨sel', hfold, hlen', _⟩ := foldlM_setTrueAt_some indices _ hin'
  refine ⟨{ c with selected := sel' }, ?_, ?_⟩
  · unfold setSelectedIndices
    rw [hfold]
    rfl
  · simp at hlen'
    simp [hlen', hlen]

theorem setSelectedIndices_preserves_invariant_witness :
    ∃ c', setSelectedIndices (newListBox ["a", "b"]) [1, 0] = some c' ∧
      c'.selected.length = c'.values.length :=
  setSelectedIndices_preserves_invariant (newListBox ["a", "b"]) [1, 0]
    (by decide) (by decide)

/-- C10 counterexample: with values `["a","b","c"]` and indices `[0, 5]`,
`SetSelectedIndices` faults on the out-of-range index 5 instead of
selecting the in-range index 0. -/
theorem setSelectedIndices_not_filtering :
    setSelectedIndices (newListBox ["a", "b", "c"]) [0, 5] = none := by
  decide

/-- C10 (amended): when every index is in range,
`SetSelectedIndices(indices)` replaces the previous selection with
exactly the listed indices regardless of the `Multi()` flag — afterwards
`SelectedIndices()` is the ordered list of in-range positions that occur
in `indices`, and `multi` is untouched; an out-of-range index faults
instead of being filtered out. -/
theorem setSelectedIndices_replaces_selection (c : ListBoxState) (indices : List Int)
    (hlen : c.selected.length = c.values.length)
    (hin : ∀ i ∈ indices, 0 ≤ i ∧ i.toNat < c.values.length) :
    ∃ c', setSelectedIndices c indices = some c' ∧
      selectedIndices c' =
        (List.range c.values.length).filter (fun j : Nat => decide ((j : Int) ∈ indices)) ∧
      c'.multi = c.multi ∧ c'.values = c.values := by
  have hin' : ∀ i ∈ indices, 0 ≤ i ∧ i.toNat < (c.selected.map (fun _ => false)).length := by
    intro i hi
    simpa [hlen] using hin i hi
  obtain ⟨sel', hfold, hlen', hget⟩ := foldlM_setTrueAt_some indices _ hin'
  refine ⟨{ c with selected := sel' }, ?_, ?_, rfl, rfl⟩
  · unfold setSelectedIndices
    rw [hfold]
    rfl
  · rw [selectedIndices_eq_filter]
    have hlen'' : sel'.length = c.values.length := by
      simpa [hlen] using hlen'
    show (List.range sel'.length).filter (fun j => sel'.getD j false)
      = (List.range c.values.length).filter (fun j : Nat => decide ((j : Int) ∈ indices))
    rw [hlen'']
    apply List.filter_congr
    intro j hj
    have h1 : (∃ i ∈ indices, i.toNat = j) ↔ (j : Int) ∈ indices := by
      constructor
      · rintro ⟨i, hi, hij⟩
        have hnn := (hin i hi).1
        have hij' : i = (j : Int) := by
          omega
        rwa [hij'] at hi
      · intro hj'
        exact ⟨(j : Int), hj', by simp⟩
    have h2 := hget j
    rw [getD_map_false] at h2
    simp only [Bool.false_eq_true, false_or] at h2
    by_cases hmemI : (j : Int) ∈ indices
    · have hb : sel'.getD j false = true := h2.mpr (h1.mpr hmemI)
      rw [List.getD_eq_getElem?_getD] at hb
      simp [hb, hmemI]
    · have hb : sel'.getD j false = false := by
        cases hb : sel'.getD j false
        · rfl
        · exact absurd (h1.mp (h2.mp hb)) hmemI
      rw [List.getD_eq_getElem?_getD] at hb
      simp [hb, hmemI]

theorem setSelectedIndices_replaces_selection_witness :
    ∃ c', setSelectedIndices ⟨["a", "b", "c"], false, [false, true, false], 1⟩ [2, 0]
        = some c' ∧
      selectedIndices c' =
        (List.range 3).filter (fun j : Nat => decide ((j : Int) ∈ ([2, 0] : List Int))) ∧
      c'.multi = false ∧ c'.values = ["a", "b", "c"] :=
  setSelectedIndices_replaces_selection
    ⟨["a", "b", "c"], false, [false, true, false], 1⟩ [2, 0] (by decide) (by decide)

/-- C6: a ListBox with values `["a","b","c"]` and `multi = false`,
preprocessing the submitted value `"1"`, ends with
`SelectedValue() == "b"` and `SelectedIndices() == [1]`. -/
theorem preprocess_scenario4 :
    ∃ c', preprocessEvent (newListBox ["a", "b", "c"]) "1" = some c' ∧
      selectedValue c' = some "b" ∧ selectedIndices c' = [1] :=
  ⟨⟨["a", "b", "c"], false, [false, true, false], 1⟩, by decide, by decide, by decide⟩

/-- Executable in-range check for one token of the submitted value: if
`strconv.Atoi` succeeds the index must be a legal position of the
selection vector (otherwise the Go code panics). -/
def tokenInRange (len : Nat) (tok : List Char) : Bool :=
  match atoi tok with
  | some i => decide (0 ≤ i) && decide (i.toNat < len)
  | none => true

theorem foldTokens_some (toks : List (List Char)) (sel : List Bool)
    (h : ∀ tok ∈ toks, tokenInRange sel.length tok = true) :
    ∃ sel', toks.foldlM
        (fun sel tok =>
          match atoi tok with
          | some idx => setTrueAt sel idx
          | none => some sel) sel = some sel' ∧
      sel'.length = sel.length ∧
      ((∀ tok ∈ toks, atoi tok = none) → sel' = sel) := by
  induction toks generalizing sel with
  | nil =>
    exact ⟨sel, rfl, rfl, fun _ => rfl⟩
  | cons tok rest ih =>
    have htok := h tok (by simp)
    cases hat : atoi tok with
    | none =>
      obtain ⟨sel', hfold, hlen, hun⟩ := ih sel (fun t ht => h t (by simp [ht]))
      refine ⟨sel', ?_, hlen, ?_⟩
      · simpa [List.foldlM, hat] using hfold
      · intro hall
        exact hun (fun t ht => hall t (by simp [ht]))
    | some idx =>
      have hb : 0 ≤ idx ∧ idx.toNat < sel.length := by
        rw [tokenInRange, hat] at htok
        simpa using htok
      have hstep : setTrueAt sel idx = some (sel.set idx.toNat true) := by
        unfold setTrueAt
        rw [if_pos hb]
      obtain ⟨sel', hfold, hlen, _⟩ := ih (sel.set idx.toNat true)
        (fun t ht => by simpa using h t (by simp [ht]))
      refine ⟨sel', ?_, by simpa using hlen, ?_⟩
      · simpa [List.foldlM, hat, hstep] using hfold
      · intro hall
        exact absurd (hall tok (by simp)) (by simp [hat])

/-- C2 counterexample: a ListBox with its only value selected receives
the non-empty, wholly unparseable payload `"x"`; preprocessing clears
the selection instead of leaving the state unchanged. -/
theorem preprocess_malformed_clears :
    preprocessEvent ⟨["a"], false, [true], 1⟩ "x"
        = some ⟨["a"], false, [false], 1⟩ ∧
      (⟨["a"], false, [false], 1⟩ : ListBoxState) ≠ ⟨["a"], false, [true], 1⟩ := by
  decide

/-- C2 (amended): the value-extraction step never faults when every
token that parses as an integer is an in-range index; unparseable
tokens are skipped without raising; an empty payload leaves the
component unchanged; but a non-empty payload whose tokens are all
unparseable clears the selection (every entry false) rather than
leaving the previous selection state intact. -/
theorem preprocessEvent_spec (c : ListBoxState) (value : String)
    (hin : ∀ tok ∈ splitSep ',' value.data, tokenInRange c.selected.length tok = true) :
    ∃ c', preprocessEvent c value = some c' ∧
      (value.data.length = 0 → c' = c) ∧
      ((value.data.length ≠ 0 ∧ ∀ tok ∈ splitSep ',' value.data, atoi tok = none) →
        c'.selected = c.selected.map (fun _ => false)) := by
  by_cases hempty : value.data.length = 0
  · refine ⟨c, ?_, fun _ => rfl, ?_⟩
    · unfold preprocessEvent
      rw [if_pos hempty]
    · rintro ⟨hne, -⟩
      exact absurd hempty hne
  · have hin' : ∀ tok ∈ splitSep ',' value.data,
        tokenInRange (c.selected.map (fun _ => false)).length tok = true := by
      intro t ht
      simpa using hin t ht
    obtain ⟨sel', hfold, hlen, hun⟩ := foldTokens_some (splitSep ',' value.data) _ hin'
    refine ⟨{ c with selected := sel' }, ?_, fun he => absurd he hempty, ?_⟩
    · unfold preprocessEvent
      rw [if_neg hempty, hfold]
      rfl
    · rintro ⟨-, hall⟩
      simpa using hun hall

theorem preprocessEvent_spec_witness :
    ∃ c', preprocessEvent (newListBox ["a", "b"]) "x,1" = some c' ∧
      (("x,1" : String).data.length = 0 → c' = newListBox ["a", "b"]) ∧
      ((("x,1" : String).data.length ≠ 0 ∧
          ∀ tok ∈ splitSep ',' ("x,1" : String).data, atoi tok = none) →
        c'.selected = (newListBox ["a", "b"]).selected.map (fun _ => false)) :=
  preprocessEvent_spec (newListBox ["a", "b"]) "x,1" (by decide)

end Gowut

namespace Gowut

/-! ## Client runtime (static JavaScript in sess_monitor.go)

JavaScript dynamic values relevant here: `undefined` (an uninitialized
`var`, or a read of an absent property), `NaN` (`undefined + number`,
or `parseInt` of a non-numeric string), and numbers. -/

inductive JsVal where
  | undef
  | nan
  | int (n : Int)
deriving Repr, DecidableEq

/-- JavaScript `+` on the values that occur in `se`: a sum involving
`undefined` or `NaN` is `NaN`. -/
def jsAdd : JsVal → JsVal → JsVal
  | .int a, .int b => .int (a + b)
  | _, _ => .nan

/-- JavaScript truthiness: `undefined`, `NaN` and `0` are falsy. -/
def jsTruthy : JsVal → Bool
  | .int n => n != 0
  | _ => false

/-- The standard modifier-key properties of a DOM event object. -/
structure DomEvent where
  altKey : Bool
  ctrlKey : Bool
  metaKey : Bool
  shiftKey : Bool
deriving Repr, DecidableEq

/-- The four modifier bit values `_modKeyAlt`, `_modKeyCtlr`,
`_modKeyMeta`, `_modKeyShift` emitted into the generated script (their
numeric values come from server constants outside these two files, so
they are kept abstract). -/
structure ModKeyMasks where
  alt : Int
  ctrl : Int
  meta : Int
  shift : Int
deriving Repr, DecidableEq

/-- The source reads `event.ctlrKey` — a misspelling of `ctrlKey`. A DOM
event object has no property of that name, so the read yields
`undefined` for every event. -/
def ctlrKeyRead (_e : DomEvent) : JsVal := JsVal.undef

/-- The modifier-key value computed by `se`:
`var modKeys;` declares `modKeys` with no initializer (`undefined`),
then four `modKeys += cond ? mask : 0;` statements follow
(`altKey`, `ctlrKey`, `metaKey`, `shiftKey` in source order). -/
def seModKeys (m : ModKeyMasks) (e : DomEvent) : JsVal :=
  let modKeys : JsVal := JsVal.undef
  let modKeys := jsAdd modKeys (JsVal.int (if e.altKey then m.alt else 0))
  let modKeys := jsAdd modKeys (JsVal.int (if jsTruthy (ctlrKeyRead e) then m.ctrl else 0))
  let modKeys := jsAdd modKeys (JsVal.int (if e.metaKey then m.meta else 0))
  let modKeys := jsAdd modKeys (JsVal.int (if e.shiftKey then m.shift else 0))
  modKeys

/-- Leading decimal digits of a character list, or `none` when there are
none (the `NaN` case of `parseInt`). -/
def leadingDigits (ds : List Char) : Option Nat :=
  match ds.takeWhile Char.isDigit with
  | [] => none
  | digs => some (digs.foldl (fun acc ch => acc * 10 + (ch.toNat - 48)) 0)

/-- JavaScript `parseInt` (radix 10 inputs as used here): skip spaces,
optional sign, then the longest digit prefix; `none` models `NaN`. -/
def parseIntJS (s : List Char) : Option Int :=
  match s.dropWhile (fun ch => ch = ' ') with
  | '-' :: ds => (leadingDigits ds).map (fun n => -(n : Int))
  | '+' :: ds => (leadingDigits ds).map Int.ofNat
  | ds => (leadingDigits ds).map Int.ofNat

/-- The observable actions `procEresp` performs while walking the
directive list. -/
inductive ClientAction where
  | alertNoResponse
  | alertUnknownCode (code : List Char)
  | rerenderComp (id : List Char)
  | focusComp (id : Option Int)
  | reloadPath (path : List Char)
  | reloadForce
deriving Repr, DecidableEq

/-- The four directive-code constants `_eraNoAction`, `_eraReloadWin`,
`_eraDirtyComps`, `_eraFocusComp` (numeric values come from server
constants outside these two files, so they are kept abstract). -/
structure EraCodes where
  noAction : Int
  reloadWin : Int
  dirtyComps : Int
  focusComp : Int
deriving Repr, DecidableEq

/-- One iteration of the `procEresp` loop: split the directive on
commas, `switch (parseInt(n[0]))` with cases in source order
(`_eraDirtyComps`, `_eraFocusComp`, `_eraNoAction`, `_eraReloadWin`,
default alert). A `NaN` discriminant matches no case and falls to the
default alert. -/
def procAction (era : EraCodes) (action : List Char) : List ClientAction :=
  let n := splitSep ',' action
  match parseIntJS (n.headD []) with
  | none => [ClientAction.alertUnknownCode (n.headD [])]
  | some code =>
    if code = era.dirtyComps then
      (n.drop 1).map ClientAction.rerenderComp
    else if code = era.focusComp then
      if n.length > 1 then [ClientAction.focusComp (parseIntJS (n.getD 1 []))] else []
    else if code = era.noAction then
      []
    else if code = era.reloadWin then
      if n.length > 1 ∧ (n.getD 1 []).length > 0 then
        [ClientAction.reloadPath (n.getD 1 [])]
      else
        [ClientAction.reloadForce]
    else
      [ClientAction.alertUnknownCode (n.headD [])]

/-- JS `procEresp`: split the response body on `";"`; alert
"No response received!" when the resulting array is empty; otherwise
process each directive in order. (In JavaScript `"".split(";")` is
`[""]`, so the empty-array guard can never fire.) -/
def procEresp (era : EraCodes) (responseText : List Char) : List ClientAction :=
  let actions := splitSep ';' responseText
  if actions.length = 0 then [ClientAction.alertNoResponse]
  else (actions.map (procAction era)).flatten

/-! ### Session monitor client behavior (`checkSession`) -/

/-- What `checkSession` leaves on the monitor element: the inner span's
text and whether the `gwu-SessMonitor-Expired` class is present. -/
structure SessMonitorView where
  label : String
  expired : Bool
deriving Repr, DecidableEq

/-- JavaScript `Math.round`: round half toward positive infinity. -/
def mathRound (q : ℚ) : Int := ⌊q + 1 / 2⌋

/-- The DOM update `checkSession` performs for a successfully parsed
remaining-time value `timeoutSec`:
negative → add the expired class, label "Expired!";
under 60 → remove the class, label "<1 min";
otherwise → remove the class, label `"~" + Math.round(timeoutSec/60) + " min"`. -/
def checkSessionView (timeoutSec : ℚ) : SessMonitorView :=
  if timeoutSec < 0 then { label := "Expired!", expired := true }
  else if timeoutSec < 60 then { label := "<1 min", expired := false }
  else { label := "~" ++ toString (mathRound (timeoutSec / 60)) ++ " min", expired := false }

/-! ### Client timer table (`setupTimer`) -/

/-- Calls into the browser timer API, in order of occurrence
(`clearInterval`/`clearTimeout` when `rep` is true/false, and
`setInterval`/`setTimeout` likewise). -/
inductive TimerEvent where
  | cleared (rep : Bool) (handle : Nat)
  | installed (rep : Bool) (handle : Nat)
deriving Repr, DecidableEq

/-- One entry of the `timers` table (source fields `js`, `timeout`,
`repeat`, `reset`, `id`; `repeat` and `id` are spelled `rep` and
`handle` because Lean reserves those spellings). -/
structure TimerRec where
  js : String
  timeout : Int
  rep : Bool
  reset : Bool
  handle : Nat
deriving Repr, DecidableEq

/-- The `changed` test of `setupTimer`:
`timer.js != js || timer.timeout != timeout || timer.repeat != repeat || timer.reset != reset`
(`active` is deliberately not compared). -/
def paramsChanged (t : TimerRec) (js : String) (timeout : Int) (rep reset : Bool) : Bool :=
  (t.js != js) || (t.timeout != timeout) || (t.rep != rep) || (t.reset != reset)

/-- The client-global timer state: the `timers` object (one slot per
component id; `null` and absent are both `none`), a counter modelling
the browser's fresh timer handles, and the log of timer API calls. -/
structure TimersState where
  timers : Nat → Option TimerRec
  nextHandle : Nat
  log : List TimerEvent

/-- JS `var timers = new Object();` — the initial, empty table. -/
def emptyTimers : TimersState :=
  { timers := fun _ => none, nextHandle := 0, log := [] }

/-- JS `setupTimer(compId, js, timeout, repeat, active, reset)`:
if a timer exists for `compId` and (`!active` or parameters changed),
clear it and null its slot; if parameters are unchanged, return; if
`!active`, return; otherwise create, store and start a new timer. -/
def setupTimer (st : TimersState) (compId : Nat) (js : String) (timeout : Int)
    (rep active reset : Bool) : TimersState :=
  let install : TimersState → TimersState := fun s =>
    { timers := fun k => if k = compId then
        some { js := js, timeout := timeout, rep := rep, reset := reset,
               handle := s.nextHandle }
      else s.timers k,
      nextHandle := s.nextHandle + 1,
      log := s.log ++ [TimerEvent.installed rep s.nextHandle] }
  match st.timers compId with
  | some timer =>
    let changed := paramsChanged timer js timeout rep reset
    let st1 := if !active || changed then
        { timers := fun k => if k = compId then none else st.timers k,
          nextHandle := st.nextHandle,
          log := st.log ++ [TimerEvent.cleared timer.rep timer.handle] }
      else st
    if !changed then st1
    else if !active then st1
    else install st1
  | none =>
    if !active then st
    else install st

/-! ### Session monitor render (sess_monitor.go `Render`) -/

/-- Modelled from the spec: the writer byte constants used by
`sessMonitorImpl.Render` (`strSpanOp`, `strGT`, `strComma`, `strQuote`,
`strJsParamCl`, `strParenCl`, `strSemicol`, `strScriptOp`,
`strScriptCl`, `strSpanCl`) live in the repository's writer source,
which is not among the given files. Their values follow the code
comment inside `Render`:
`<script>setupTimer(compId,"checkSession(compId)",60000,true,true,false);checkSession(compId);</script>`. -/
def strSpanOp : String := "<span"

def strGT : String := ">"

def strEmptySpan : String := "<span></span>"

def strScriptOp : String := "<script>setupTimer("

def strComma : String := ","

def strQuote : String := "\""

def strJsCheckSessOp : String := "checkSession("

def strJsParamCl : String := ")\""

def strParenCl : String := ")"

def strSemicol : String := ";"

def strScriptCl : String := ");</script>"

def strSpanCl : String := "</span>"

/-- Modelled from the spec: `writer.Writev` for an `int` prints its
decimal representation. -/
def writevInt (n : Int) : String := toString n

/-- Modelled from the spec: `writer.Writev` for a `bool` prints
`true`/`false`. -/
def writevBool (b : Bool) : String := if b then "true" else "false"

/-- Go `sessMonitorImpl.Render` as its exact sequence of writer calls;
`attrs` and `ehandlers` stand for the output of `renderAttrsAndStyle`
and `renderEHandlers` (component-generic code outside the given
files). -/
def sessMonitorRenderWrites (id : Nat) (attrs ehandlers : String) : List String :=
  [strSpanOp, attrs, ehandlers, strGT,
   strEmptySpan,
   strScriptOp, writevInt id, strComma,
   strQuote, strJsCheckSessOp, writevInt id, strJsParamCl,
   strComma, writevInt (60 * 1000), strComma,
   writevBool true, strComma, writevBool true, strComma, writevBool false,
   strParenCl, strSemicol,
   strJsCheckSessOp, writevInt id, strScriptCl,
   strSpanCl]

def sessMonitorRender (id : Nat) (attrs ehandlers : String) : String :=
  String.join (sessMonitorRenderWrites id attrs ehandlers)

end Gowut

namespace Gowut

/-! ### Claims about the client runtime (C3, C4, C5, C7, C8) -/

/-- C4 (code bug): for every assignment of the modifier bit values and
every DOM event — any combination of pressed modifiers — `se` computes
the wire modifier-key field as `NaN`, never the claimed bitmask (in
particular not `0` for no modifiers and not the Ctrl bit for
Ctrl-only): `var modKeys;` leaves `modKeys` `undefined`, so the first
`+=` yields `undefined + number = NaN`, and every later `+=` keeps
`NaN`; independently, the misspelled `event.ctlrKey` read means the
Ctrl bit could never be added even with an initialized accumulator. -/
theorem seModKeys_always_nan (m : ModKeyMasks) (e : DomEvent) :
    seModKeys m e = JsVal.nan ∧ seModKeys m e ≠ JsVal.int 0 := by
  constructor
  · rfl
  · intro h
    simp [seModKeys, jsAdd] at h

/-- C3: when the client's response processor receives an empty response
body, it raises a user-facing `window.alert`. (The explicit
`actions.length == 0` guard is dead — `"".split(";")` is `[""]` — but
the lone empty directive parses to `NaN`, matches no `switch` case, and
hits the default branch, which alerts "Unknown response code:". This
holds for every assignment of the four directive-code constants.) -/
theorem procEresp_empty_alerts (era : EraCodes) :
    procEresp era [] = [ClientAction.alertUnknownCode []] := rfl

/-- C5: for every poll result `timeoutSec` the client displays:
negative → expired state with the fixed label "Expired!";
at least 0 and under 60 → no expired state, label "<1 min";
at least 60 → no expired state, label `"~" + round(timeoutSec/60) + " min"`;
and concretely `125.0` yields "~2 min". -/
theorem checkSession_label_spec (t : ℚ) :
    (t < 0 → checkSessionView t = { label := "Expired!", expired := true }) ∧
    (0 ≤ t → t < 60 → checkSessionView t = { label := "<1 min", expired := false }) ∧
    (60 ≤ t → checkSessionView t =
      { label := "~" ++ toString (mathRound (t / 60)) ++ " min", expired := false }) ∧
    checkSessionView 125 = { label := "~2 min", expired := false } := by
  refine ⟨?_, ?_, ?_, ?_⟩
  · intro h
    rw [checkSessionView, if_pos h]
  · intro h0 h60
    rw [checkSessionView, if_neg (not_lt.mpr h0), if_pos h60]
  · intro h
    rw [checkSessionView, if_neg (by linarith), if_neg (by linarith)]
  · have h125 : checkSessionView 125 =
        { label := "~" ++ toString (mathRound ((125 : ℚ) / 60)) ++ " min",
          expired := false } := by
      rw [checkSessionView, if_neg (by norm_num), if_neg (by norm_num)]
    rw [h125]
    have hr : mathRound ((125 : ℚ) / 60) = 2 := by
      rw [mathRound, Int.floor_eq_iff]
      norm_num
    rw [hr]
    rfl

theorem checkSession_label_spec_witness :
    checkSessionView (-(1 : ℚ)) = { label := "Expired!", expired := true } ∧
      checkSessionView 45 = { label := "<1 min", expired := false } :=
  ⟨(checkSession_label_spec (-1)).1 (by norm_num),
   (checkSession_label_spec 45).2.1 (by norm_num) (by norm_num)⟩

/-- C7: the clear-and-replace semantics of `setupTimer`:
(1) an existing timer for `compId` with different parameters is cleared
before any new timer is installed (and a new one is installed exactly
when `active`);
(2) with `active = false` any existing timer is torn down and no timer
is installed — afterwards the slot is empty;
(3) an existing timer with unchanged parameters and `active = true` is
kept untouched (no teardown, no recreation, state unchanged);
(4) slots of other component ids are never touched (with the table
keyed by component id, at most one timer per id is structural). -/
theorem setupTimer_spec (st : TimersState) (compId : Nat) (js : String)
    (timeout : Int) (rep active reset : Bool) :
    (∀ t, st.timers compId = some t →
      paramsChanged t js timeout rep reset = true →
      (setupTimer st compId js timeout rep active reset).log =
        st.log ++ (TimerEvent.cleared t.rep t.handle ::
          (if active then [TimerEvent.installed rep st.nextHandle] else []))) ∧
    (active = false →
      (setupTimer st compId js timeout rep active reset).timers compId = none ∧
      (setupTimer st compId js timeout rep active reset).log =
        st.log ++ (match st.timers compId with
          | some t => [TimerEvent.cleared t.rep t.handle]
          | none => [])) ∧
    (∀ t, st.timers compId = some t →
      paramsChanged t js timeout rep reset = false → active = true →
      setupTimer st compId js timeout rep active reset = st) ∧
    (∀ k, k ≠ compId →
      (setupTimer st compId js timeout rep active reset).timers k = st.timers k) := by
  refine ⟨?_, ?_, ?_, ?_⟩
  · intro t ht hch
    cases hA : active <;>
      simp [setupTimer, ht, hch, hA]
  · intro hA
    subst hA
    cases ht : st.timers compId with
    | none => simp [setupTimer, ht]
    | some t =>
      cases hch : paramsChanged t js timeout rep reset <;>
        simp [setupTimer, ht, hch]
  · intro t ht hch hA
    subst hA
    simp [setupTimer, ht, hch]
  · intro k hk
    cases ht : st.timers compId with
    | none =>
      cases hA : active <;> simp [setupTimer, ht, hA, hk]
    | some t =>
      cases hA : active <;>
        cases hch : paramsChanged t js timeout rep reset <;>
          simp [setupTimer, ht, hA, hch, hk]

theorem setupTimer_spec_witness :
    (setupTimer
        { timers := fun k => if k = 1 then
            some { js := "a", timeout := 100, rep := true, reset := false, handle := 0 }
          else none,
          nextHandle := 1, log := [] }
        1 "a" 200 true true false).log =
      [] ++ (TimerEvent.cleared true 0 ::
        (if true then [TimerEvent.installed true 1] else [])) :=
  (setupTimer_spec
      { timers := fun k => if k = 1 then
          some { js := "a", timeout := 100, rep := true, reset := false, handle := 0 }
        else none,
        nextHandle := 1, log := [] }
      1 "a" 200 true true false).1
    { js := "a", timeout := 100, rep := true, reset := false, handle := 0 }
    rfl (by decide)

/-- C8: `Render` of the session monitor emits, for every component id
and any attribute/handler markup, a span whose inline script first
calls `setupTimer(id, "checkSession(id)", 60000, true, true, false)` —
a repeating, active, non-reset timer with a 60000 ms period running
`checkSession` on the component's id — and then performs one immediate
`checkSession(id)` call; moreover running that `setupTimer` call on an
empty timer table installs exactly such a repeating timer for `id`. -/
theorem sessMonitor_render_script (id : Nat) (attrs ehandlers : String) :
    sessMonitorRender id attrs ehandlers =
      "<span" ++ attrs ++ ehandlers ++ "><span></span><script>setupTimer(" ++
        toString (id : Int) ++ ",\"checkSession(" ++ toString (id : Int) ++
        ")\",60000,true,true,false);checkSession(" ++ toString (id : Int) ++
        ");</script></span>" ∧
    (setupTimer emptyTimers id ("checkSession(" ++ toString (id : Int) ++ ")")
        60000 true true false).timers id =
      some { js := "checkSession(" ++ toString (id : Int) ++ ")", timeout := 60000,
             rep := true, reset := false, handle := 0 } := by
  constructor
  · simp only [sessMonitorRender, sessMonitorRenderWrites, String.join, List.foldl,
      strSpanOp, strGT, strEmptySpan, strScriptOp, strComma, strQuote, strJsCheckSessOp,
      strJsParamCl, strParenCl, strSemicol, strScriptCl, strSpanCl, writevInt, writevBool,
      String.append_assoc]
    rfl
  · simp only [setupTimer, emptyTimers]
    simp

end Gowut
